import Mathlib

/-!
Verification development for the BrowserAutomationSDK repository.

The file embeds the behaviour of src/index.js: the fill_input locator
chain (selector list, first visible match), and the nine tool executors
(open_browser, take_screenshot, open_url, fill_input, click_screen,
send_keys, double_click, scroll, close_browser) as pure functions over an
explicit automation state.  Playwright primitives are external
collaborators, so their outcomes are supplied by a Behavior record: a
field none means the primitive succeeds, some msg means it throws msg.
The out field of an ExecResult is Except.ok s when the execute function
returns the string s, and Except.error e when an exception escapes the
execute function.  The effects list records which browser primitives
were invoked.
-/

namespace BrowserSDK

/-- Whether the needle is an initial segment of the hay. -/
def charsLeadWith (needle hay : List Char) : Bool :=
  match needle, hay with
  | [], _ => true
  | _ :: _, [] => false
  | a :: as, b :: bs => a == b && charsLeadWith as bs

/-- Whether the needle occurs as a contiguous segment of the hay. -/
def charsContain (hay needle : List Char) : Bool :=
  charsLeadWith needle hay ||
    match hay with
    | [] => false
    | _ :: t => charsContain t needle

/-- Case-sensitive substring test, modelling the XPath contains() function
used by the sixth selector of fill_input. -/
def strContains (hay needle : String) : Bool :=
  charsContain hay.data needle.data

/-- Case-insensitive substring test, modelling the CSS attribute operator
with the i flag and the Playwright has-text matcher. -/
def containsCI (hay needle : String) : Bool :=
  charsContain (hay.data.map Char.toLower) (needle.data.map Char.toLower)

/-- An abstracted DOM element: the attributes inspected by the fill_input
selector chain, visible text, sibling-label context for the two structural
selectors, and visibility. -/
structure Element where
  tag : String := "input"
  typeAttr : Option String := none
  placeholder : Option String := none
  ariaLabel : Option String := none
  nameAttr : Option String := none
  idAttr : Option String := none
  textContent : String := ""
  prevSiblingLabel : Option String := none
  precedingSiblingLabels : List String := []
  visible : Bool := true
  deriving Repr, DecidableEq

/-- The shapes of the selector strings built by fill_input
(src/index.js lines 110 to 121). -/
inductive Selector where
  | typedPlaceholder (ty identifier : String)
  | placeholderContains (identifier : String)
  | ariaLabelContains (identifier : String)
  | nameContains (identifier : String)
  | idContains (identifier : String)
  | labelAdjacentInput (identifier : String)
  | labelFollowingInput (identifier : String)
  deriving Repr, DecidableEq

/-- Containment test against an optional attribute: an absent attribute
never matches a CSS contains selector. -/
def optContainsCI (v : Option String) (identifier : String) : Bool :=
  match v with
  | some s => containsCI s identifier
  | none => false

/-- Whether an element is matched by one selector of the fill_input chain. -/
def Element.matches (e : Element) (s : Selector) : Bool :=
  match s with
  | .typedPlaceholder ty identifier =>
      e.tag == "input" && e.typeAttr == some ty && optContainsCI e.placeholder identifier
  | .placeholderContains identifier =>
      e.tag == "input" && optContainsCI e.placeholder identifier
  | .ariaLabelContains identifier =>
      e.tag == "input" && optContainsCI e.ariaLabel identifier
  | .nameContains identifier =>
      e.tag == "input" && optContainsCI e.nameAttr identifier
  | .idContains identifier =>
      e.tag == "input" && optContainsCI e.idAttr identifier
  | .labelAdjacentInput identifier =>
      e.tag == "input" && optContainsCI e.prevSiblingLabel identifier
  | .labelFollowingInput identifier =>
      e.tag == "input" && e.precedingSiblingLabels.any (fun t => strContains t identifier)

/-- The base selectors array of fill_input, in source order
(src/index.js lines 110 to 117). -/
def baseSelectors (identifier : String) : List Selector :=
  [Selector.placeholderContains identifier,
   Selector.ariaLabelContains identifier,
   Selector.nameContains identifier,
   Selector.idContains identifier,
   Selector.labelAdjacentInput identifier,
   Selector.labelFollowingInput identifier]

/-- The full selector chain of fill_input: the type-scoped placeholder
selector is unshifted when a truthy inputType is supplied
(src/index.js lines 119 to 121); an empty string is falsy in JavaScript. -/
def selectorChain (identifier : String) (inputType : Option String) : List Selector :=
  match inputType with
  | some ty =>
      if ty = "" then baseSelectors identifier
      else Selector.typedPlaceholder ty identifier :: baseSelectors identifier
  | none => baseSelectors identifier

/-- page.locator(selector).first(): the first element of the document, in
document order, matched by the selector. -/
def firstMatch (els : List Element) (s : Selector) : Option Element :=
  match els with
  | [] => none
  | e :: rest => if e.matches s then some e else firstMatch rest s

/-- Whether the first document-order match of a selector is visible: the
break condition of the fill_input resolution loop
(src/index.js lines 126 to 136). -/
def hitVisible (els : List Element) (s : Selector) : Bool :=
  match firstMatch els s with
  | some e => e.visible
  | none => false

/-- The fill_input resolution loop: selectors are tried in order, and the
loop breaks at the first selector whose first document-order match is
visible; if none qualifies the trailing visibility re-check fails and the
resolution reports not found (src/index.js lines 123 to 141). -/
def resolve (els : List Element) (sels : List Selector) : Option Element :=
  match sels with
  | [] => none
  | s :: rest =>
    match firstMatch els s with
    | some e => if e.visible then some e else resolve els rest
    | none => resolve els rest

/-- The standardized no-page failure string shared by every executor that
checks the page reference. -/
def noPageMsg : String := "No browser page available. Please open browser first."

/-- The success string of fill_input. -/
def filledMsg (identifier value : String) : String :=
  "Filled \"" ++ identifier ++ "\" with \"" ++ value ++ "\""

/-- The not-found string of fill_input. -/
def notFoundMsg (identifier : String) : String :=
  "Input field for \"" ++ identifier ++ "\" not found or not visible"

/-- The browser primitives an executor may invoke, recorded in invocation
order. -/
inductive Effect where
  | newPage
  | screenshot (fullPage : Bool) (path : String)
  | goto (url : String)
  | mouseMove (x y : Int)
  | mouseClick (x y : Int)
  | mouseDblClick (x y : Int)
  | wheel (dx dy : Int)
  | keyboardType (text : String)
  | fillField (identifier value : String)
  | pageClose
  | browserClose
  deriving Repr, DecidableEq

/-- Outcomes of the external Playwright primitives: a field none means the
primitive succeeds, some msg means it throws an error with that message.
screenshotData is the base64 encoding produced by the screenshot buffer. -/
structure Behavior where
  newPageThrows : Option String := none
  screenshotThrows : Option String := none
  gotoThrows : Option String := none
  mouseThrows : Option String := none
  typeThrows : Option String := none
  fillThrows : Option String := none
  pageCloseThrows : Option String := none
  browserCloseThrows : Option String := none
  screenshotData : String := ""
  deriving Repr, DecidableEq

/-- The mutable module state of src/index.js: the page reference (a page
id, none when unset), a counter producing fresh page ids, the document of
the current page, the ss variable holding the last base64 screenshot, and
the current Date.now() value in milliseconds. -/
structure AutoState where
  page : Option Nat := none
  nextPageId : Nat := 0
  dom : List Element := []
  ss : Option String := none
  now : Nat := 0
  deriving Repr, DecidableEq

/-- Result of one execute call: out is Except.ok s when the function
returns the string s and Except.error e when an exception escapes it;
state is the module state afterwards; effects lists the browser
primitives invoked. -/
structure ExecResult where
  out : Except String String
  state : AutoState
  effects : List Effect

/-- True when the execute call returned a string instead of throwing. -/
def isOk (r : ExecResult) : Bool :=
  match r.out with
  | Except.ok _ => true
  | Except.error _ => false

/-- The string an execute call produced (for calls that do return). -/
def execMessage (r : ExecResult) : String :=
  match r.out with
  | Except.ok s => s
  | Except.error e => e

/-- open_browser (src/index.js lines 27 to 39): assigns a fresh page to
the module page variable and returns a success string.  There is no
existing-page guard and no try/catch, so a newPage failure escapes. -/
def openBrowser (beh : Behavior) (st : AutoState) : ExecResult :=
  match beh.newPageThrows with
  | some e => ⟨Except.error e, st, [Effect.newPage]⟩
  | none =>
      ⟨Except.ok "Opened Browser",
       { st with page := some st.nextPageId, nextPageId := st.nextPageId + 1 },
       [Effect.newPage]⟩

/-- take_screenshot (src/index.js lines 42 to 60): checks the page
reference, then calls page.screenshot with fullPage true and a
Date.now()-based path, stores the base64 buffer in the ss variable and
returns a fixed success string.  The screenshot call is not wrapped in
try/catch, so its failure escapes. -/
def takeScreenShot (beh : Behavior) (st : AutoState) : ExecResult :=
  match st.page with
  | none => ⟨Except.ok noPageMsg, st, []⟩
  | some _ =>
    match beh.screenshotThrows with
    | some e =>
        ⟨Except.error e, st,
         [Effect.screenshot true ("screenshot-" ++ toString st.now ++ ".png")]⟩
    | none =>
        ⟨Except.ok "Screenshot taken successfully",
         { st with ss := some beh.screenshotData },
         [Effect.screenshot true ("screenshot-" ++ toString st.now ++ ".png")]⟩

/-- open_url (src/index.js lines 62 to 89): a falsy (empty) url is
rejected before the page check; page.goto is wrapped in try/catch. -/
def openURL (beh : Behavior) (st : AutoState) (url : String) : ExecResult :=
  if url = "" then ⟨Except.ok "URL is undefined", st, []⟩
  else
    match st.page with
    | none => ⟨Except.ok noPageMsg, st, []⟩
    | some _ =>
      match beh.gotoThrows with
      | some e =>
          ⟨Except.ok ("Failed to navigate to " ++ url ++ ": " ++ e), st, [Effect.goto url]⟩
      | none =>
          ⟨Except.ok ("Successfully navigated to " ++ url), st, [Effect.goto url]⟩

/-- fill_input (src/index.js lines 91 to 151): page check, then the
selector-chain resolution of resolve, then element.fill inside the
try/catch. -/
def fillInputExec (beh : Behavior) (st : AutoState)
    (identifier value : String) (inputType : Option String) : ExecResult :=
  match st.page with
  | none => ⟨Except.ok noPageMsg, st, []⟩
  | some _ =>
    match resolve st.dom (selectorChain identifier inputType) with
    | none => ⟨Except.ok (notFoundMsg identifier), st, []⟩
    | some _ =>
      match beh.fillThrows with
      | some e =>
          ⟨Except.ok ("Failed to fill input: " ++ e), st, [Effect.fillField identifier value]⟩
      | none =>
          ⟨Except.ok (filledMsg identifier value), st, [Effect.fillField identifier value]⟩

/-- click_screen (src/index.js lines 153 to 184): page check first, then
the coordinate-presence check; mouse.move then mouse.click inside
try/catch. -/
def clickOnScreen (beh : Behavior) (st : AutoState) (x y : Option Int) : ExecResult :=
  match st.page with
  | none => ⟨Except.ok noPageMsg, st, []⟩
  | some _ =>
    match x, y with
    | some xv, some yv =>
      match beh.mouseThrows with
      | some e =>
          ⟨Except.ok ("Failed to click at (" ++ toString xv ++ ", " ++ toString yv ++ "): " ++ e),
           st, [Effect.mouseMove xv yv]⟩
      | none =>
          ⟨Except.ok ("Clicked at (" ++ toString xv ++ ", " ++ toString yv ++ ")"),
           st, [Effect.mouseMove xv yv, Effect.mouseClick xv yv]⟩
    | _, _ => ⟨Except.ok "Coordinates are undefined", st, []⟩

/-- send_keys (src/index.js lines 186 to 215): page check, then inside
the try block a mouse click only when both coordinates are present,
followed unconditionally by keyboard.type. -/
def sendKeys (beh : Behavior) (st : AutoState) (x y : Option Int) (text : String) : ExecResult :=
  match st.page with
  | none => ⟨Except.ok noPageMsg, st, []⟩
  | some _ =>
    match x, y with
    | some xv, some yv =>
      match beh.mouseThrows with
      | some e => ⟨Except.ok ("Failed to type text: " ++ e), st, [Effect.mouseClick xv yv]⟩
      | none =>
        match beh.typeThrows with
        | some e =>
            ⟨Except.ok ("Failed to type text: " ++ e), st,
             [Effect.mouseClick xv yv, Effect.keyboardType text]⟩
        | none =>
            ⟨Except.ok ("Typed: " ++ text), st,
             [Effect.mouseClick xv yv, Effect.keyboardType text]⟩
    | _, _ =>
      match beh.typeThrows with
      | some e => ⟨Except.ok ("Failed to type text: " ++ e), st, [Effect.keyboardType text]⟩
      | none => ⟨Except.ok ("Typed: " ++ text), st, [Effect.keyboardType text]⟩

/-- double_click (src/index.js lines 218 to 245): page check first, then
the coordinate-presence check; mouse.dblclick inside try/catch. -/
def doubleClick (beh : Behavior) (st : AutoState) (x y : Option Int) : ExecResult :=
  match st.page with
  | none => ⟨Except.ok noPageMsg, st, []⟩
  | some _ =>
    match x, y with
    | some xv, some yv =>
      match beh.mouseThrows with
      | some e =>
          ⟨Except.ok ("Failed to double click at (" ++ toString xv ++ ", " ++ toString yv ++ "): " ++ e),
           st, [Effect.mouseDblClick xv yv]⟩
      | none =>
          ⟨Except.ok ("Double clicked at (" ++ toString xv ++ ", " ++ toString yv ++ ")"),
           st, [Effect.mouseDblClick xv yv]⟩
    | _, _ => ⟨Except.ok "Coordinates are undefined", st, []⟩

/-- scroll (src/index.js lines 247 to 269): page check, then mouse.wheel
inside try/catch. -/
def scroll (beh : Behavior) (st : AutoState) (deltaY : Int) : ExecResult :=
  match st.page with
  | none => ⟨Except.ok noPageMsg, st, []⟩
  | some _ =>
    match beh.mouseThrows with
    | some e => ⟨Except.ok ("Failed to scroll: " ++ e), st, [Effect.wheel 0 deltaY]⟩
    | none =>
        ⟨Except.ok ("Scrolled by " ++ toString deltaY ++ " pixels vertically"), st,
         [Effect.wheel 0 deltaY]⟩

/-- close_browser (src/index.js lines 271 to 289): no page check; inside
one try/catch it closes the page when the reference is set and then
closes the browser, so a page.close failure aborts the browser.close
call.  The page reference is never cleared. -/
def closeBrowser (beh : Behavior) (st : AutoState) : ExecResult :=
  match st.page with
  | some _ =>
    match beh.pageCloseThrows with
    | some e => ⟨Except.ok ("Failed to close browser: " ++ e), st, [Effect.pageClose]⟩
    | none =>
      match beh.browserCloseThrows with
      | some e =>
          ⟨Except.ok ("Failed to close browser: " ++ e), st,
           [Effect.pageClose, Effect.browserClose]⟩
      | none =>
          ⟨Except.ok "Browser closed successfully", st,
           [Effect.pageClose, Effect.browserClose]⟩
  | none =>
    match beh.browserCloseThrows with
    | some e => ⟨Except.ok ("Failed to close browser: " ++ e), st, [Effect.browserClose]⟩
    | none => ⟨Except.ok "Browser closed successfully", st, [Effect.browserClose]⟩

/-- One batch-fill field descriptor. -/
structure FieldDescriptor where
  identifier : String
  value : String
  fieldType : Option String := none
  deriving Repr, DecidableEq

/-- Modelled from the spec: the fill_form_fields batch executor is
advertised in the README feature list but absent from src/index.js.  Per
the spec it iterates an ordered list of FieldDescriptors, resolves and
fills each independently through the single-field fill executor, and
records each outcome in that field slot of the result, a per-field
failure never aborting the remaining fields. -/
def fillFormFields (beh : Behavior) (st : AutoState) (fields : List FieldDescriptor) : List String :=
  fields.map (fun f => execMessage (fillInputExec beh st f.identifier f.value f.fieldType))

/-- Strategy 4 of the locator chain as the spec words it: a raw text
match anywhere on the page; a visible element whose text contains the
identifier is a candidate of that strategy.  Stated only to compare the
spec chain against the code chain. -/
def specRawTextCandidate (els : List Element) (identifier : String) : Bool :=
  els.any (fun e => e.visible && strContains e.textContent identifier)

/-- Fixture: all browser primitives succeed. -/
def behOk : Behavior := {}

/-- Fixture: the initial module state, before any open_browser call. -/
def stNoPage : AutoState := {}

/-- Fixture: primitives succeed and the screenshot buffer encodes to a
known base64 string. -/
def beh64 : Behavior := { screenshotData := "aGVsbG8=" }

/-- Fixture: page.close throws, everything else succeeds. -/
def behPageCloseFails : Behavior := { pageCloseThrows := some "pageboom" }

/-- Fixture: a visible input with placeholder Username. -/
def userInput : Element := { placeholder := some "Username" }

/-- Fixture: a visible input with placeholder Password. -/
def passInput : Element := { placeholder := some "Password" }

/-- Fixture: a visible button whose only handle is its text. -/
def loginButton : Element := { tag := "button", textContent := "Login" }

/-- Fixture: a state with an open page showing a two-field form. -/
def stOpen : AutoState := { page := some 0, nextPageId := 1, dom := [userInput, passInput], now := 5 }

/-- Fixture: a resolvable username descriptor. -/
def fieldUser : FieldDescriptor := { identifier := "Username", value := "natwar" }

/-- Fixture: an unresolvable descriptor. -/
def fieldNoSuch : FieldDescriptor := { identifier := "nosuch", value := "x" }

/-- Fixture: a resolvable password descriptor. -/
def fieldPass : FieldDescriptor := { identifier := "Password", value := "pw" }

/-- Fixture: the batch used to exercise fill_form_fields. -/
def fields3 : List FieldDescriptor := [fieldUser, fieldNoSuch, fieldPass]


theorem firstMatch_eq_some (els : List Element) (s : Selector) (e : Element) :
    firstMatch els s = some e ↔
      ∃ pre post, els = pre ++ e :: post ∧ e.matches s = true ∧
        ∀ e2 ∈ pre, e2.matches s = false := by
  induction els with
  | nil =>
    simp only [firstMatch]
    constructor
    · intro h; cases h
    · rintro ⟨pre, post, h, -, -⟩
      exact absurd h (by simp)
  | cons a rest ih =>
    simp only [firstMatch]
    by_cases ha : a.matches s = true
    · rw [if_pos ha]
      constructor
      · intro h
        obtain rfl : a = e := by cases h; rfl
        exact ⟨[], rest, rfl, ha, by simp⟩
      · rintro ⟨pre, post, hsplit, hm, hpre⟩
        cases pre with
        | nil =>
          obtain ⟨rfl, rfl⟩ : a = e ∧ rest = post := by
            constructor
            · exact (List.cons.injEq _ _ _ _ ▸ congrArg id hsplit).1
            · exact (List.cons.injEq _ _ _ _ ▸ congrArg id hsplit).2
          rfl
        | cons p pre2 =>
          have hp : p = a := by
            have := congrArg List.head? hsplit
            simpa using this.symm
          have : a.matches s = false := hp ▸ hpre p (by simp)
          rw [this] at ha; cases ha
    · rw [if_neg ha]
      rw [ih]
      constructor
      · rintro ⟨pre, post, hsplit, hm, hpre⟩
        refine ⟨a :: pre, post, by simp [hsplit], hm, ?_⟩
        intro e2 he2
        rcases List.mem_cons.mp he2 with rfl | h2
        · exact Bool.eq_false_iff.mpr ha
        · exact hpre e2 h2
      · rintro ⟨pre, post, hsplit, hm, hpre⟩
        cases pre with
        | nil =>
          obtain rfl : a = e := by
            have := congrArg List.head? hsplit
            simpa using this
          exact absurd hm ha
        | cons p pre2 =>
          have hp : p = a := by
            have := congrArg List.head? hsplit
            simpa using this.symm
          subst hp
          have htail : rest = pre2 ++ e :: post := by
            have := congrArg List.tail hsplit
            simpa using this
          exact ⟨pre2, post, htail, hm, fun e2 h2 => hpre e2 (by simp [h2])⟩

theorem resolve_eq_some (els : List Element) (sels : List Selector) (e : Element) :
    resolve els sels = some e ↔
      ∃ pre s post, sels = pre ++ s :: post ∧
        (∀ s2 ∈ pre, hitVisible els s2 = false) ∧
        firstMatch els s = some e ∧ e.visible = true := by
  induction sels with
  | nil =>
    simp only [resolve]
    constructor
    · intro h; cases h
    · rintro ⟨pre, s, post, h, -, -, -⟩
      exact absurd h (by simp)
  | cons s0 rest ih =>
    by_cases hv : hitVisible els s0 = true
    · obtain ⟨e0, he0, hvis0⟩ : ∃ e0, firstMatch els s0 = some e0 ∧ e0.visible = true := by
        unfold hitVisible at hv
        cases h : firstMatch els s0 with
        | none => rw [h] at hv; cases hv
        | some e1 => rw [h] at hv; exact ⟨e1, rfl, hv⟩
      have hres : resolve els (s0 :: rest) = some e0 := by
        simp [resolve, he0, hvis0]
      rw [hres]
      constructor
      · intro h
        obtain rfl : e0 = e := by cases h; rfl
        exact ⟨[], s0, rest, rfl, by simp, he0, hvis0⟩
      · rintro ⟨pre, s, post, hsplit, hpre, hfm, hevis⟩
        cases pre with
        | nil =>
          obtain rfl : s0 = s := by
            have := congrArg List.head? hsplit
            simpa using this
          rw [he0] at hfm
          exact congrArg some (Option.some.inj hfm)
        | cons p pre2 =>
          have hp : p = s0 := by
            have := congrArg List.head? hsplit
            simpa using this.symm
          have : hitVisible els s0 = false := hp ▸ hpre p (by simp)
          rw [this] at hv; cases hv
    · have hv' : hitVisible els s0 = false := Bool.eq_false_iff.mpr hv
      have hres : resolve els (s0 :: rest) = resolve els rest := by
        cases h : firstMatch els s0 with
        | none => simp [resolve, h]
        | some e1 =>
          have he1 : e1.visible = false := by
            unfold hitVisible at hv'
            rw [h] at hv'
            exact hv'
          simp [resolve, h, he1]
      rw [hres, ih]
      constructor
      · rintro ⟨pre, s, post, hsplit, hpre, hfm, hevis⟩
        refine ⟨s0 :: pre, s, post, by simp [hsplit], ?_, hfm, hevis⟩
        intro s2 hs2
        rcases List.mem_cons.mp hs2 with rfl | h2
        · exact hv'
        · exact hpre s2 h2
      · rintro ⟨pre, s, post, hsplit, hpre, hfm, hevis⟩
        cases pre with
        | nil =>
          obtain rfl : s0 = s := by
            have := congrArg List.head? hsplit
            simpa using this
          unfold hitVisible at hv'
          rw [hfm] at hv'
          simp [hevis] at hv'
        | cons p pre2 =>
          have hp : p = s0 := by
            have := congrArg List.head? hsplit
            simpa using this.symm
          subst hp
          have htail : rest = pre2 ++ s :: post := by
            have := congrArg List.tail hsplit
            simpa using this
          exact ⟨pre2, s, post, htail, fun s2 h2 => hpre s2 (by simp [h2]), hfm, hevis⟩

theorem filledMsg_head (a b : String) : (filledMsg a b).data.head? = some 'F' := rfl

theorem notFoundMsg_head (c : String) : (notFoundMsg c).data.head? = some 'I' := rfl

theorem filledMsg_ne_notFoundMsg (a b c : String) : filledMsg a b ≠ notFoundMsg c := by
  intro h
  have h2 : (filledMsg a b).data.head? = (notFoundMsg c).data.head? :=
    congrArg (fun s => s.data.head?) h
  rw [filledMsg_head, notFoundMsg_head] at h2
  exact absurd h2 (by decide)

theorem fillInputExec_message (beh : Behavior) (st : AutoState) (p : Nat)
    (identifier value : String) (inputType : Option String)
    (hp : st.page = some p) (hf : beh.fillThrows = none) :
    execMessage (fillInputExec beh st identifier value inputType) =
      match resolve st.dom (selectorChain identifier inputType) with
      | none => notFoundMsg identifier
      | some _ => filledMsg identifier value := by
  simp only [fillInputExec, hp]
  cases hr : resolve st.dom (selectorChain identifier inputType) with
  | none => simp [execMessage]
  | some e => simp [execMessage, hf]

theorem fillFormFields_get? (beh : Behavior) (st : AutoState)
    (fields : List FieldDescriptor) (j : Nat) (fj : FieldDescriptor)
    (hj : fields.get? j = some fj) :
    (fillFormFields beh st fields).get? j =
      some (execMessage (fillInputExec beh st fj.identifier fj.value fj.fieldType)) := by
  rw [fillFormFields, List.get?_map, hj]
  rfl

/-- C1 (amended): for every identifier and optional type hint, the
resolver of fill_input tries its selectors in the fixed source order
(the type-scoped placeholder attribute selector when a hint is given,
then the placeholder, aria-label, name and id attribute-containment
selectors, then the two label-to-input structural selectors) and returns
exactly the first document-order match of the first selector whose first
document-order match is visible, so ties are broken by strategy order and
then document order, and an attribute-match candidate beats any
later-strategy candidate.  There is no tag-plus-text, raw-text or
literal-selector strategy in the chain. -/
theorem fillInput_strategy_order (els : List Element) (identifier : String)
    (inputType : Option String) (e : Element) :
    resolve els (selectorChain identifier inputType) = some e ↔
      ∃ pre s post, selectorChain identifier inputType = pre ++ s :: post ∧
        (∀ s2 ∈ pre, hitVisible els s2 = false) ∧
        (∃ epre epost, els = epre ++ e :: epost ∧ e.matches s = true ∧
          ∀ e2 ∈ epre, e2.matches s = false) ∧
        e.visible = true := by
  rw [resolve_eq_some]
  constructor
  · rintro ⟨pre, s, post, h1, h2, h3, h4⟩
    exact ⟨pre, s, post, h1, h2, (firstMatch_eq_some els s e).mp h3, h4⟩
  · rintro ⟨pre, s, post, h1, h2, h3, h4⟩
    exact ⟨pre, s, post, h1, h2, (firstMatch_eq_some els s e).mpr h3, h4⟩

theorem fillInput_strategy_order_witness :
    ∃ pre s post, selectorChain "Username" none = pre ++ s :: post ∧
      (∀ s2 ∈ pre, hitVisible [userInput] s2 = false) ∧
      (∃ epre epost, [userInput] = epre ++ userInput :: epost ∧
        Element.matches userInput s = true ∧
        ∀ e2 ∈ epre, Element.matches e2 s = false) ∧
      userInput.visible = true :=
  (fillInput_strategy_order [userInput] "Username" none userInput).mp rfl

/-- C1 counterexample: the claimed strategy chain includes a raw-text
strategy, but the code chain of fill_input has none: on a page whose only
element is a visible button with text Login, a raw-text candidate exists
as the spec words it, yet resolution of the identifier Login returns
nothing, so the claimed chain is not the implemented chain. -/
theorem fillInput_no_text_strategy_cex :
    specRawTextCandidate [loginButton] "Login" = true ∧
    resolve [loginButton] (selectorChain "Login" none) = none :=
  ⟨rfl, rfl⟩

/-- C2 (spec-modelled fill_form_fields): the batch fill, given an ordered
list of descriptors, returns one entry per descriptor in the input order;
a slot whose descriptor fails to resolve carries the not-found string for
that identifier, every slot whose descriptor resolves carries the success
string for that field, and a slot carries the not-found string exactly
when its own descriptor is unresolvable, so one failing descriptor marks
only its own slot and aborts nothing. -/
theorem fillFormFields_partial_failure (beh : Behavior) (st : AutoState) (p k : Nat)
    (fields : List FieldDescriptor) (fk : FieldDescriptor)
    (hp : st.page = some p) (hf : beh.fillThrows = none)
    (hk : fields.get? k = some fk)
    (hfail : resolve st.dom (selectorChain fk.identifier fk.fieldType) = none) :
    (fillFormFields beh st fields).length = fields.length ∧
    (fillFormFields beh st fields).get? k = some (notFoundMsg fk.identifier) ∧
    (∀ j fj, fields.get? j = some fj →
      (resolve st.dom (selectorChain fj.identifier fj.fieldType)).isSome = true →
      (fillFormFields beh st fields).get? j = some (filledMsg fj.identifier fj.value)) ∧
    (∀ j fj, fields.get? j = some fj →
      ((fillFormFields beh st fields).get? j = some (notFoundMsg fj.identifier) ↔
        resolve st.dom (selectorChain fj.identifier fj.fieldType) = none)) := by
  have hmsg : ∀ fj : FieldDescriptor,
      execMessage (fillInputExec beh st fj.identifier fj.value fj.fieldType) =
        match resolve st.dom (selectorChain fj.identifier fj.fieldType) with
        | none => notFoundMsg fj.identifier
        | some _ => filledMsg fj.identifier fj.value := by
    intro fj
    exact fillInputExec_message beh st p fj.identifier fj.value fj.fieldType hp hf
  refine ⟨by simp [fillFormFields], ?_, ?_, ?_⟩
  · rw [fillFormFields_get? beh st fields k fk hk, hmsg fk, hfail]
  · intro j fj hj hres
    obtain ⟨e, he⟩ := Option.isSome_iff_exists.mp hres
    rw [fillFormFields_get? beh st fields j fj hj, hmsg fj, he]
  · intro j fj hj
    rw [fillFormFields_get? beh st fields j fj hj, hmsg fj]
    cases hr : resolve st.dom (selectorChain fj.identifier fj.fieldType) with
    | none => simp
    | some e =>
      simp only [Option.some.injEq]
      constructor
      · intro h
        exact absurd h (filledMsg_ne_notFoundMsg fj.identifier fj.value fj.identifier)
      · intro h
        cases h

theorem fillFormFields_partial_failure_witness :
    (fillFormFields behOk stOpen fields3).length = 3 ∧
    (fillFormFields behOk stOpen fields3).get? 1 = some (notFoundMsg "nosuch") ∧
    (fillFormFields behOk stOpen fields3).get? 0 = some (filledMsg "Username" "natwar") ∧
    (fillFormFields behOk stOpen fields3).get? 2 = some (filledMsg "Password" "pw") := by
  have h := fillFormFields_partial_failure behOk stOpen 0 1 fields3 fieldNoSuch rfl rfl rfl rfl
  refine ⟨by rw [h.1]; rfl, h.2.1, ?_, ?_⟩
  · exact h.2.2.1 0 fieldUser rfl rfl
  · exact h.2.2.1 2 fieldPass rfl rfl

theorem openURL_isOk (beh : Behavior) (st : AutoState) (url : String) :
    isOk (openURL beh st url) = true := by
  unfold openURL
  repeat' split
  all_goals rfl

theorem fillInputExec_isOk (beh : Behavior) (st : AutoState)
    (identifier value : String) (inputType : Option String) :
    isOk (fillInputExec beh st identifier value inputType) = true := by
  unfold fillInputExec
  repeat' split
  all_goals rfl

theorem clickOnScreen_isOk (beh : Behavior) (st : AutoState) (x y : Option Int) :
    isOk (clickOnScreen beh st x y) = true := by
  unfold clickOnScreen
  repeat' split
  all_goals rfl

theorem sendKeys_isOk (beh : Behavior) (st : AutoState) (x y : Option Int) (text : String) :
    isOk (sendKeys beh st x y text) = true := by
  unfold sendKeys
  repeat' split
  all_goals rfl

theorem doubleClick_isOk (beh : Behavior) (st : AutoState) (x y : Option Int) :
    isOk (doubleClick beh st x y) = true := by
  unfold doubleClick
  repeat' split
  all_goals rfl

theorem scroll_isOk (beh : Behavior) (st : AutoState) (deltaY : Int) :
    isOk (scroll beh st deltaY) = true := by
  unfold scroll
  repeat' split
  all_goals rfl

theorem closeBrowser_isOk (beh : Behavior) (st : AutoState) :
    isOk (closeBrowser beh st) = true := by
  unfold closeBrowser
  repeat' split
  all_goals rfl

/-- C3 (amended): every executor except open_browser and close_browser,
invoked while no Page exists, returns the standardized no-page failure
string, leaves the module state untouched and invokes no browser
primitive — provided its own earlier parameter short-circuit does not
fire (open_url rejects an empty URL before its page check).
close_browser performs no page check at all: with no Page it still
closes the browser process. -/
theorem executors_fail_fast_no_page (beh : Behavior) (st : AutoState)
    (url identifier value text : String) (inputType : Option String)
    (x y : Option Int) (deltaY : Int)
    (hp : st.page = none) (hu : url ≠ "") :
    takeScreenShot beh st = ⟨Except.ok noPageMsg, st, []⟩ ∧
    openURL beh st url = ⟨Except.ok noPageMsg, st, []⟩ ∧
    fillInputExec beh st identifier value inputType = ⟨Except.ok noPageMsg, st, []⟩ ∧
    clickOnScreen beh st x y = ⟨Except.ok noPageMsg, st, []⟩ ∧
    sendKeys beh st x y text = ⟨Except.ok noPageMsg, st, []⟩ ∧
    doubleClick beh st x y = ⟨Except.ok noPageMsg, st, []⟩ ∧
    scroll beh st deltaY = ⟨Except.ok noPageMsg, st, []⟩ := by
  refine ⟨?_, ?_, ?_, ?_, ?_, ?_, ?_⟩
  · simp [takeScreenShot, hp]
  · simp [openURL, hp, hu]
  · simp [fillInputExec, hp]
  · simp [clickOnScreen, hp]
  · simp [sendKeys, hp]
  · simp [doubleClick, hp]
  · simp [scroll, hp]

theorem executors_fail_fast_no_page_witness :
    takeScreenShot behOk stNoPage = ⟨Except.ok noPageMsg, stNoPage, []⟩ ∧
    openURL behOk stNoPage "https://ui.chaicode.com/" = ⟨Except.ok noPageMsg, stNoPage, []⟩ ∧
    fillInputExec behOk stNoPage "Username" "natwar" none = ⟨Except.ok noPageMsg, stNoPage, []⟩ ∧
    clickOnScreen behOk stNoPage (some 5) (some 7) = ⟨Except.ok noPageMsg, stNoPage, []⟩ ∧
    sendKeys behOk stNoPage (some 5) (some 7) "hi" = ⟨Except.ok noPageMsg, stNoPage, []⟩ ∧
    doubleClick behOk stNoPage (some 5) (some 7) = ⟨Except.ok noPageMsg, stNoPage, []⟩ ∧
    scroll behOk stNoPage 120 = ⟨Except.ok noPageMsg, stNoPage, []⟩ :=
  executors_fail_fast_no_page behOk stNoPage "https://ui.chaicode.com/" "Username" "natwar"
    "hi" none (some 5) (some 7) 120 rfl (by decide)

/-- C3 counterexample: close_browser invoked with no Page does not return
the no-page failure string; it succeeds and closes the browser process, a
browser mutation. -/
theorem closeBrowser_no_page_check_cex :
    (closeBrowser behOk stNoPage).out = Except.ok "Browser closed successfully" ∧
    "Browser closed successfully" ≠ noPageMsg ∧
    (closeBrowser behOk stNoPage).effects = [Effect.browserClose] :=
  ⟨rfl, by decide, rfl⟩

/-- C4 (amended): every executor except open_browser and take_screenshot
wraps its browser operation and returns a string for every outcome of the
underlying primitives; open_browser and take_screenshot return strings on
their success and precondition paths, but a throwing newPage or
screenshot primitive escapes them uncaught. -/
theorem executors_return_strings (beh : Behavior) (st : AutoState)
    (url identifier value text : String) (inputType : Option String)
    (x y : Option Int) (deltaY : Int) :
    isOk (openURL beh st url) = true ∧
    isOk (fillInputExec beh st identifier value inputType) = true ∧
    isOk (clickOnScreen beh st x y) = true ∧
    isOk (sendKeys beh st x y text) = true ∧
    isOk (doubleClick beh st x y) = true ∧
    isOk (scroll beh st deltaY) = true ∧
    isOk (closeBrowser beh st) = true ∧
    (st.page = none → isOk (takeScreenShot beh st) = true) ∧
    (beh.screenshotThrows = none → isOk (takeScreenShot beh st) = true) ∧
    (beh.newPageThrows = none → isOk (openBrowser beh st) = true) := by
  refine ⟨openURL_isOk beh st url, fillInputExec_isOk beh st identifier value inputType,
    clickOnScreen_isOk beh st x y, sendKeys_isOk beh st x y text,
    doubleClick_isOk beh st x y, scroll_isOk beh st deltaY, closeBrowser_isOk beh st,
    ?_, ?_, ?_⟩
  · intro h
    simp [takeScreenShot, h, isOk]
  · intro h
    cases hsp : st.page with
    | none => simp [takeScreenShot, hsp, isOk]
    | some p => simp [takeScreenShot, hsp, h, isOk]
  · intro h
    simp [openBrowser, h, isOk]

theorem executors_return_strings_witness :
    isOk (openURL behOk stNoPage "https://ui.chaicode.com/") = true :=
  (executors_return_strings behOk stNoPage "https://ui.chaicode.com/" "Username" "natwar"
    "hi" none (some 5) (some 7) 120).1

/-- C4 counterexample: a throwing newPage escapes open_browser and a
throwing screenshot escapes take_screenshot, so those execute calls do
not return a string. -/
theorem executor_throws_cex :
    (openBrowser { behOk with newPageThrows := some "boom" } stNoPage).out =
      Except.error "boom" ∧
    (takeScreenShot { behOk with screenshotThrows := some "shot" } stOpen).out =
      Except.error "shot" :=
  ⟨rfl, rfl⟩

/-- C5 (amended): open_browser performs no double-initialization guard:
whenever the newPage primitive succeeds it returns the success string,
assigns a fresh page to the module page variable — replacing any page
already there — and bumps the fresh-page counter. -/
theorem openBrowser_no_guard (beh : Behavior) (st : AutoState)
    (h : beh.newPageThrows = none) :
    openBrowser beh st =
      ⟨Except.ok "Opened Browser",
       { st with page := some st.nextPageId, nextPageId := st.nextPageId + 1 },
       [Effect.newPage]⟩ := by
  simp [openBrowser, h]

theorem openBrowser_no_guard_witness :
    openBrowser behOk stOpen =
      ⟨Except.ok "Opened Browser",
       { stOpen with page := some stOpen.nextPageId, nextPageId := stOpen.nextPageId + 1 },
       [Effect.newPage]⟩ :=
  openBrowser_no_guard behOk stOpen rfl

/-- C5 counterexample: open_browser called while a Page already exists is
not reported as a failure: it returns the success string and replaces the
existing page reference with a fresh page. -/
theorem openBrowser_double_init_cex :
    stOpen.page = some 0 ∧
    (openBrowser behOk stOpen).out = Except.ok "Opened Browser" ∧
    (openBrowser behOk stOpen).state.page = some 1 ∧
    (some 1 : Option Nat) ≠ some 0 ∧
    (openBrowser behOk stOpen).effects = [Effect.newPage] :=
  ⟨rfl, rfl, rfl, by decide, rfl⟩

/-- C6 (amended): close_browser never clears the module page variable, so
an executor invoked after a successful close does not trip its no-page
check: it passes the check and attempts its operation on the closed
page instead of returning the no-page result. -/
theorem closeBrowser_keeps_page_reference (beh : Behavior) (st : AutoState) :
    (closeBrowser beh st).state = st ∧
    (st.page.isSome = true →
      ∀ beh2 : Behavior,
        (takeScreenShot beh2 ((closeBrowser beh st).state)).out ≠ Except.ok noPageMsg) := by
  have hstate : (closeBrowser beh st).state = st := by
    unfold closeBrowser
    repeat' split
    all_goals rfl
  refine ⟨hstate, ?_⟩
  intro hp beh2
  rw [hstate]
  obtain ⟨p, hp2⟩ := Option.isSome_iff_exists.mp hp
  unfold takeScreenShot
  rw [hp2]
  cases h2 : beh2.screenshotThrows with
  | some e =>
    intro h
    cases h
  | none =>
    intro h
    exact absurd (Except.ok.inj h) (by decide)

theorem closeBrowser_keeps_page_reference_witness :
    (closeBrowser behOk stOpen).state = stOpen ∧
    (takeScreenShot behOk ((closeBrowser behOk stOpen).state)).out ≠ Except.ok noPageMsg := by
  have h := closeBrowser_keeps_page_reference behOk stOpen
  exact ⟨h.1, h.2 rfl behOk⟩

/-- C6 counterexample: after a successful close_browser the page
reference still holds the closed page, and a subsequent take_screenshot
does not return the no-page result — it proceeds to invoke the
screenshot primitive on the closed page. -/
theorem closeBrowser_stale_page_cex :
    ((closeBrowser behOk stOpen).state).page = some 0 ∧
    (takeScreenShot behOk ((closeBrowser behOk stOpen).state)).out =
      Except.ok "Screenshot taken successfully" ∧
    "Screenshot taken successfully" ≠ noPageMsg ∧
    (takeScreenShot behOk ((closeBrowser behOk stOpen).state)).effects ≠ [] :=
  ⟨rfl, rfl, by decide, by decide⟩

/-- C7 (amended): take_screenshot with an active Page and a succeeding
screenshot primitive captures a full-page snapshot persisted to the
Date.now()-based file screenshot-(now).png, stores the base64 encoding in
the module-level ss variable, and returns the fixed success string — the
base64 data and the file handle are not returned to the caller. -/
theorem takeScreenShot_behavior (beh : Behavior) (st : AutoState) (p : Nat)
    (hp : st.page = some p) (hok : beh.screenshotThrows = none) :
    takeScreenShot beh st =
      ⟨Except.ok "Screenshot taken successfully",
       { st with ss := some beh.screenshotData },
       [Effect.screenshot true ("screenshot-" ++ toString st.now ++ ".png")]⟩ := by
  simp [takeScreenShot, hp, hok]

theorem takeScreenShot_behavior_witness :
    takeScreenShot beh64 stOpen =
      ⟨Except.ok "Screenshot taken successfully",
       { stOpen with ss := some beh64.screenshotData },
       [Effect.screenshot true ("screenshot-" ++ toString stOpen.now ++ ".png")]⟩ :=
  takeScreenShot_behavior beh64 stOpen 0 rfl rfl

/-- C7 counterexample: the string take_screenshot returns is the fixed
success message, which is neither the base64 encoding of the captured
image nor the name of the persisted file. -/
theorem takeScreenShot_fixed_return_cex :
    (takeScreenShot beh64 stOpen).out = Except.ok "Screenshot taken successfully" ∧
    "Screenshot taken successfully" ≠ beh64.screenshotData ∧
    "Screenshot taken successfully" ≠ "screenshot-" ++ toString stOpen.now ++ ".png" :=
  ⟨rfl, by decide, by decide⟩

/-- C8 (amended): with an active Page and a missing coordinate axis,
click_screen and double_click return the coordinates-undefined failure
and invoke no input primitive, but send_keys does not fail: it skips the
positioning click and still types the text at the current focus,
returning the typed-success string. -/
theorem coordinate_fallbacks_missing_axis (beh : Behavior) (st : AutoState) (p : Nat)
    (x y : Option Int) (text : String)
    (hp : st.page = some p) (hxy : x = none ∨ y = none) :
    clickOnScreen beh st x y = ⟨Except.ok "Coordinates are undefined", st, []⟩ ∧
    doubleClick beh st x y = ⟨Except.ok "Coordinates are undefined", st, []⟩ ∧
    (beh.typeThrows = none →
      sendKeys beh st x y text =
        ⟨Except.ok ("Typed: " ++ text), st, [Effect.keyboardType text]⟩) := by
  refine ⟨?_, ?_, ?_⟩
  · rcases hxy with h | h
    · subst h; cases y <;> simp [clickOnScreen, hp]
    · subst h; cases x <;> simp [clickOnScreen, hp]
  · rcases hxy with h | h
    · subst h; cases y <;> simp [doubleClick, hp]
    · subst h; cases x <;> simp [doubleClick, hp]
  · intro ht
    rcases hxy with h | h
    · subst h; cases y <;> simp [sendKeys, hp, ht]
    · subst h; cases x <;> simp [sendKeys, hp, ht]

theorem coordinate_fallbacks_missing_axis_witness :
    clickOnScreen behOk stOpen none (some 7) = ⟨Except.ok "Coordinates are undefined", stOpen, []⟩ ∧
    doubleClick behOk stOpen none (some 7) = ⟨Except.ok "Coordinates are undefined", stOpen, []⟩ ∧
    sendKeys behOk stOpen none (some 7) "hello" =
      ⟨Except.ok ("Typed: " ++ "hello"), stOpen, [Effect.keyboardType "hello"]⟩ := by
  have h := coordinate_fallbacks_missing_axis behOk stOpen 0 none (some 7) "hello" rfl (Or.inl rfl)
  exact ⟨h.1, h.2.1, h.2.2 rfl⟩

/-- C8 counterexample: send_keys invoked with an active Page and the x
axis missing does not return a coordinates-undefined failure: it types
the text and reports success, performing keyboard input. -/
theorem sendKeys_missing_coords_cex :
    (sendKeys behOk stOpen none (some 5) "hi").out = Except.ok "Typed: hi" ∧
    "Typed: hi" ≠ "Coordinates are undefined" ∧
    (sendKeys behOk stOpen none (some 5) "hi").effects = [Effect.keyboardType "hi"] :=
  ⟨rfl, by decide, rfl⟩

/-- C9 (amended): close_browser never throws and releases the Page before
the process; with no Page it still closes the process and reports
success; but an error raised while closing the Page, although caught and
returned as a failure string, aborts the teardown so the process close
does not execute. -/
theorem closeBrowser_teardown (beh : Behavior) (st : AutoState) (e : String) :
    isOk (closeBrowser beh st) = true ∧
    (st.page = none → beh.browserCloseThrows = none →
      closeBrowser beh st =
        ⟨Except.ok "Browser closed successfully", st, [Effect.browserClose]⟩) ∧
    (st.page.isSome = true → beh.pageCloseThrows = some e →
      closeBrowser beh st =
        ⟨Except.ok ("Failed to close browser: " ++ e), st, [Effect.pageClose]⟩) ∧
    (st.page.isSome = true → beh.pageCloseThrows = none → beh.browserCloseThrows = none →
      closeBrowser beh st =
        ⟨Except.ok "Browser closed successfully", st,
         [Effect.pageClose, Effect.browserClose]⟩) := by
  refine ⟨closeBrowser_isOk beh st, ?_, ?_, ?_⟩
  · intro h1 h2
    simp [closeBrowser, h1, h2]
  · intro h1 h2
    obtain ⟨p, hp⟩ := Option.isSome_iff_exists.mp h1
    simp [closeBrowser, hp, h2]
  · intro h1 h2 h3
    obtain ⟨p, hp⟩ := Option.isSome_iff_exists.mp h1
    simp [closeBrowser, hp, h2, h3]

theorem closeBrowser_teardown_witness :
    closeBrowser behOk stNoPage =
      ⟨Except.ok "Browser closed successfully", stNoPage, [Effect.browserClose]⟩ ∧
    closeBrowser behPageCloseFails stOpen =
      ⟨Except.ok ("Failed to close browser: " ++ "pageboom"), stOpen, [Effect.pageClose]⟩ :=
  ⟨(closeBrowser_teardown behOk stNoPage "e").2.1 rfl rfl,
   (closeBrowser_teardown behPageCloseFails stOpen "pageboom").2.2.1 rfl rfl⟩

/-- C9 counterexample: when closing the Page throws, close_browser
returns the failure string but the browser process close never executes,
contradicting the claim that the secondary error is swallowed so that the
process close still runs. -/
theorem closeBrowser_aborts_process_close_cex :
    (closeBrowser behPageCloseFails stOpen).out =
      Except.ok "Failed to close browser: pageboom" ∧
    (closeBrowser behPageCloseFails stOpen).effects = [Effect.pageClose] ∧
    Effect.browserClose ∉ (closeBrowser behPageCloseFails stOpen).effects :=
  ⟨rfl, rfl, by decide⟩

/-- C10: open_url validates its url parameter before the page check, so
with no Page and an empty url it returns the URL-is-undefined failure
rather than the no-page result, while every other parameterized executor
checks the page first and returns the no-page result even when its own
parameters are missing or empty. -/
theorem openURL_param_check_before_page_check (beh : Behavior) (st : AutoState)
    (identifier value text : String) (inputType : Option String)
    (x y : Option Int) (deltaY : Int) (hp : st.page = none) :
    (openURL beh st "").out = Except.ok "URL is undefined" ∧
    (clickOnScreen beh st x y).out = Except.ok noPageMsg ∧
    (doubleClick beh st x y).out = Except.ok noPageMsg ∧
    (sendKeys beh st x y text).out = Except.ok noPageMsg ∧
    (fillInputExec beh st identifier value inputType).out = Except.ok noPageMsg ∧
    (scroll beh st deltaY).out = Except.ok noPageMsg ∧
    (takeScreenShot beh st).out = Except.ok noPageMsg := by
  refine ⟨rfl, ?_, ?_, ?_, ?_, ?_, ?_⟩
  · simp [clickOnScreen, hp]
  · simp [doubleClick, hp]
  · simp [sendKeys, hp]
  · simp [fillInputExec, hp]
  · simp [scroll, hp]
  · simp [takeScreenShot, hp]

theorem openURL_param_check_before_page_check_witness :
    (openURL behOk stNoPage "").out = Except.ok "URL is undefined" ∧
    (clickOnScreen behOk stNoPage none none).out = Except.ok noPageMsg ∧
    (doubleClick behOk stNoPage none none).out = Except.ok noPageMsg ∧
    (sendKeys behOk stNoPage none none "hi").out = Except.ok noPageMsg ∧
    (fillInputExec behOk stNoPage "Username" "natwar" none).out = Except.ok noPageMsg ∧
    (scroll behOk stNoPage 120).out = Except.ok noPageMsg ∧
    (takeScreenShot behOk stNoPage).out = Except.ok noPageMsg :=
  openURL_param_check_before_page_check behOk stNoPage "Username" "natwar" "hi" none
    none none 120 rfl

end BrowserSDK
